import Mathlib

/-!
# Verification of the htmlforge library

A shallow embedding of `src/__init__.py`: the `HTMLElement` class (its
constructor, the `_escape_html` text transforms, `add_child`,
`remove_child` and the `__str__` rendering) together with the tag-catalog
subclasses (`Html`, `Body`, `Div`, `P`, `Img`, `A`), and proofs settling
the specification claims about them.

Python strings are modelled as `String`, dictionaries as insertion-ordered
association lists with unique keys, and the two runtime errors the code
can raise (`TypeError` from iterating `None`, `ValueError` from
`add_child`) as an explicit `Except` result.
-/

/-- The Python runtime errors this code can raise: `TypeError` (iterating
`None` in the constructor) and `ValueError` (raised by `add_child`; this is
the spec's `InvalidArgument`). -/
inductive PyError where
  | typeError
  | valueError
deriving DecidableEq, Repr

/-- A stored child of an element, mirroring the `list[str | HTMLElement]`
held in `self.children`: either a text node (a plain string, already in its
final to-be-emitted form) or a nested element given by its tag name,
attributes and children. -/
inductive Child where
  | text (s : String)
  | elem (tag_name : String) (attributes : List (String × String)) (children : List Child)

/-- An `HTMLElement` object: `tag_name`, `attributes` (a `dict[str, str]`,
modelled as an insertion-ordered association list) and `children`. -/
structure HTMLElement where
  tag_name : String
  attributes : List (String × String)
  children : List Child

/-- View an `HTMLElement` as a child node of another element. -/
def HTMLElement.toChild (e : HTMLElement) : Child :=
  Child.elem e.tag_name e.attributes e.children

/-- One character of Python's `html.escape(text)` with its default
`quote=True`: `&`, `<`, `>` become `&amp;`, `&lt;`, `&gt;`, the double
quote becomes `&quot;` and the apostrophe becomes `&#x27;`; every other
character is kept.  `html.escape` is a chain of `str.replace` calls that
replaces `&` first and never revisits replacement text, so the whole
function is exactly this character-wise map. -/
def escapeChar (c : Char) : List Char :=
  if c = '&' then "&amp;".data
  else if c = '<' then "&lt;".data
  else if c = '>' then "&gt;".data
  else if c = Char.ofNat 34 then "&quot;".data
  else if c = Char.ofNat 39 then "&#x27;".data
  else [c]

/-- `HTMLElement._escape_html(text)` with `obfuscate=False`: Python's
`html.escape(text)`. -/
def escape_html (text : String) : String :=
  String.mk (text.data.flatMap escapeChar)

/-- `HTMLElement._escape_html(text, obfuscate=True)`: every character of
`text` becomes the decimal numeric character reference `&#<ord(char)>;`.
Note this branch applies no escaping of its own; it obfuscates exactly the
string it is given. -/
def obfuscate_html (text : String) : String :=
  String.mk (text.data.flatMap (fun c => ("&#" ++ Nat.repr c.toNat ++ ";").data))

/-- A child as passed to the `HTMLElement` constructor
(`list[str | tuple[str, str] | HTMLElement]`): a plain string, a
`(text, flag)` tuple, or an already-built element. -/
inductive ChildSpec where
  | plain (s : String)
  | tagged (s : String) (flag : String)
  | node (e : HTMLElement)

/-- The body of the constructor's `for child in children:` loop: a tuple is
unpacked and its text is escaped (flag `"escape"`), escaped then obfuscated
(flag `"obfuscate"`), or — for any other flag — appended verbatim; plain
strings and elements are appended as they are. -/
def initChild : ChildSpec → Child
  | .plain s => .text s
  | .tagged s flag =>
      if flag = "escape" then .text (escape_html s)
      else if flag = "obfuscate" then .text (obfuscate_html (escape_html s))
      else .text s
  | .node e => e.toChild

/-- `HTMLElement.__init__(tag_name, attributes=None, children=None)`.
`self.attributes = attributes or {}` turns `None` (and a falsy empty dict)
into `{}`; the constructor then runs `for child in children:` with no
`None` guard, so calling it with `children=None` — the default — raises
`TypeError` (`'NoneType' object is not iterable`). -/
def HTMLElement.init (tag_name : String) (attributes : Option (List (String × String)))
    (children : Option (List ChildSpec)) : Except PyError HTMLElement :=
  match children with
  | none => .error .typeError
  | some cs => .ok ⟨tag_name, attributes.getD [], cs.map initChild⟩

/-- `HTMLElement.add_child(child, escape=True, obfuscate=False)`.  A text
child is escaped when `escape` is true (then obfuscated when `obfuscate` is
also true); `escape=False, obfuscate=True` raises
`ValueError("Cannot obfuscate text without escaping it first.")` before
anything is appended, so on error the element is unchanged.  An element
child is appended as-is, the flags ignored. -/
def HTMLElement.add_child (e : HTMLElement) (child : Child) (escape obfuscate : Bool) :
    Except PyError HTMLElement :=
  match child with
  | .text s =>
      if escape then
        let t := escape_html s
        let t2 := if obfuscate then obfuscate_html t else t
        .ok { e with children := e.children ++ [Child.text t2] }
      else if obfuscate then
        .error .valueError
      else
        .ok { e with children := e.children ++ [child] }
  | .elem t a cs => .ok { e with children := e.children ++ [Child.elem t a cs] }

/-- Python `==` between a `str` `x` and a stored child: true exactly for a
text child holding the same string (a `str` never equals an
`HTMLElement`). -/
def childEqStr (x : String) : Child → Bool
  | .text s => s == x
  | .elem _ _ _ => false

/-- `list.remove`-style removal of the first child satisfying `p`. -/
def removeFirst (p : Child → Bool) : List Child → List Child
  | [] => []
  | c :: cs => if p c then cs else c :: removeFirst p cs

/-- `HTMLElement.remove_child(element)` for a string argument: try the raw
string, then `_escape_html(element)`, then
`_escape_html(element, obfuscate=True)` — i.e. the obfuscation of the raw,
unescaped string — and remove the first occurrence of the first form found
among the children; if none matches, do nothing. -/
def HTMLElement.remove_child (e : HTMLElement) (element : String) : HTMLElement :=
  if e.children.any (childEqStr element) then
    { e with children := removeFirst (childEqStr element) e.children }
  else if e.children.any (childEqStr (escape_html element)) then
    { e with children := removeFirst (childEqStr (escape_html element)) e.children }
  else if e.children.any (childEqStr (obfuscate_html element)) then
    { e with children := removeFirst (childEqStr (obfuscate_html element)) e.children }
  else e

/-- The attribute fragment of `__str__`:
`"".join(f' {key}="{self._escape_html(value)}"' for key, value in ...)`. -/
def attributesStr (attributes : List (String × String)) : String :=
  String.join (attributes.map (fun kv => " " ++ kv.1 ++ "=\"" ++ escape_html kv.2 ++ "\""))

mutual
/-- `str(child)` for a stored child: a text child is emitted as itself, an
element child via `HTMLElement.__str__`, which produces
`<tag attrs>` + the children's strings joined by a single space + `</tag>`. -/
def Child.render : Child → String
  | .text s => s
  | .elem t a cs =>
      "<" ++ t ++ attributesStr a ++ ">"
        ++ String.intercalate " " (renderChildren cs) ++ "</" ++ t ++ ">"

/-- `[str(child) for child in children]`. -/
def renderChildren : List Child → List String
  | [] => []
  | c :: cs => c.render :: renderChildren cs
end

/-- `HTMLElement.__str__`. -/
def HTMLElement.str (e : HTMLElement) : String :=
  Child.render e.toChild

/-- `Html.__init__(attributes=None, children=None)`: fixes the tag name to
`"html"` and forwards to the base constructor. -/
def Html.init (attributes : Option (List (String × String)))
    (children : Option (List ChildSpec)) : Except PyError HTMLElement :=
  HTMLElement.init "html" attributes children

/-- `Html.__str__`: the literal doctype line, a newline, then the base
class rendering of the element. -/
def Html.str (e : HTMLElement) : String :=
  "<!DOCTYPE html>" ++ "\n" ++ HTMLElement.str e

/-- `Body.__init__`. -/
def Body.init (attributes : Option (List (String × String)))
    (children : Option (List ChildSpec)) : Except PyError HTMLElement :=
  HTMLElement.init "body" attributes children

/-- `Div.__init__`. -/
def Div.init (attributes : Option (List (String × String)))
    (children : Option (List ChildSpec)) : Except PyError HTMLElement :=
  HTMLElement.init "div" attributes children

/-- `P.__init__`. -/
def P.init (attributes : Option (List (String × String)))
    (children : Option (List ChildSpec)) : Except PyError HTMLElement :=
  HTMLElement.init "p" attributes children

/-- `Img.__init__(attributes)`: the image variant takes attributes only and
calls `super().__init__("img", attributes)`, leaving the base constructor's
`children` parameter at its default `None`. -/
def Img.init (attributes : List (String × String)) : Except PyError HTMLElement :=
  HTMLElement.init "img" (some attributes) none

/-- `A.__init__`. -/
def A.init (attributes : Option (List (String × String)))
    (children : Option (List ChildSpec)) : Except PyError HTMLElement :=
  HTMLElement.init "a" attributes children

/-! ## Spec-side definitions

The claims speak about decimal numeric character references, about
unescaping the HTML entities that `escape` emits, and about printable
characters.  These notions are not part of the source; they are defined
here following the spec's words, to state the claims with. -/

/-- A decimal numeric character reference `&#<n>;`. -/
def numRefToken (n : Nat) : String :=
  "&#" ++ Nat.repr n ++ ";"

mutual
/-- Modelled from the spec: "unescaping the resulting HTML entities" —
read back the five entities `escape` emits (`&amp;`, `&lt;`, `&gt;`,
`&quot;`, `&#x27;`), copying every other character. -/
def unescapeChars : List Char → List Char
  | [] => []
  | c :: rest => if c = '&' then unescapeAmp rest else c :: unescapeChars rest

/-- The continuation of `unescapeChars` after an ampersand: decode the
entity the ampersand starts, or copy the lone ampersand. -/
def unescapeAmp : List Char → List Char
  | 'a' :: 'm' :: 'p' :: ';' :: r => '&' :: unescapeChars r
  | 'l' :: 't' :: ';' :: r => '<' :: unescapeChars r
  | 'g' :: 't' :: ';' :: r => '>' :: unescapeChars r
  | 'q' :: 'u' :: 'o' :: 't' :: ';' :: r => Char.ofNat 34 :: unescapeChars r
  | '#' :: 'x' :: '2' :: '7' :: ';' :: r => Char.ofNat 39 :: unescapeChars r
  | r => '&' :: unescapeChars r
end

/-- Unescape the entities produced by `escape_html`. -/
def unescape (s : String) : String :=
  String.mk (unescapeChars s.data)

/-- Membership in Python's `string.printable`: ASCII 32–126 plus the
whitespace characters `\t`, `\n`, `\r`, `\x0b`, `\x0c`. -/
def isPrintablePy (c : Char) : Bool :=
  (32 ≤ c.toNat && c.toNat ≤ 126) || c.toNat = 9 || c.toNat = 10
    || c.toNat = 11 || c.toNat = 12 || c.toNat = 13

/-- The five characters `escape_html` transforms. -/
def specialChars : List Char :=
  ['&', '<', '>', Char.ofNat 34, Char.ofNat 39]

/-! ## Helper lemmas -/

theorem data_empty_eq : "".data = [] := rfl

theorem renderChildren_eq_map (cs : List Child) :
    renderChildren cs = cs.map Child.render := by
  induction cs with
  | nil => rfl
  | cons c cs ih => simp [renderChildren, ih]

/-! ## Claims -/

/-- C1: the claim says `new(t)` with attributes and children omitted
succeeds with empty attributes and children; the code instead raises
`TypeError`, because `__init__` iterates its `children` parameter, whose
default is `None`.  This theorem evaluates the constructor at the
defaults, for every tag name. -/
theorem init_omitted_children_raises_typeError (t : String) :
    HTMLElement.init t none none = Except.error PyError.typeError := rfl

/-- C2: the claim says constructing `Img({src: "a.png", alt: "A & B"})`
succeeds and renders the `&` of the alt value as `&amp;`.  The code's
`Img.__init__` calls the base constructor with `children=None`, which
raises `TypeError` before any element exists; rendering an `img` element
with those attributes (second conjunct) would indeed escape the `&`. -/
theorem img_construction_raises_typeError :
    Img.init [("src", "a.png"), ("alt", "A & B")] = Except.error PyError.typeError ∧
    HTMLElement.str ⟨"img", [("src", "a.png"), ("alt", "A & B")], []⟩
      = "<img src=\"a.png\" alt=\"A &amp; B\"></img>" :=
  ⟨rfl, rfl⟩

/-- C3: the claim says `removeChild(s)` re-derives the escaped and the
escaped-then-obfuscated forms of `s`.  The code's third probe is
`_escape_html(s, obfuscate=True)` — the obfuscation of the raw `s`, not of
`escape(s)` — so the child stored by `add_child(s, escape=True,
obfuscate=True)` is missed whenever `s` contains an escapable character:
here `add_child` stores `obfuscate(escape("&")) = "&#38;&#97;&#109;&#112;&#59;"`,
while `remove_child("&")` probes `"&"`, `"&amp;"` and `"&#38;"` and
removes nothing. -/
theorem remove_child_misses_obfuscated_child :
    HTMLElement.add_child ⟨"div", [], []⟩ (Child.text "&") true true
      = Except.ok ⟨"div", [], [Child.text "&#38;&#97;&#109;&#112;&#59;"]⟩ ∧
    HTMLElement.remove_child ⟨"div", [], [Child.text "&#38;&#97;&#109;&#112;&#59;"]⟩ "&"
      = ⟨"div", [], [Child.text "&#38;&#97;&#109;&#112;&#59;"]⟩ :=
  ⟨rfl, rfl⟩

/-- C4: `add_child(text, escape=False, obfuscate=True)` raises
`ValueError` for every text (raised before the append, so the element is
unchanged); every other flag combination on a text child succeeds, and an
element child succeeds under all four flag combinations. -/
theorem add_child_obfuscate_requires_escape (e : HTMLElement) (s tg : String)
    (a : List (String × String)) (cs : List Child) (esc obf : Bool)
    (h : esc = true ∨ obf = false) :
    e.add_child (Child.text s) false true = Except.error PyError.valueError ∧
    (∃ e2, e.add_child (Child.text s) esc obf = Except.ok e2) ∧
    (∀ b1 b2 : Bool, ∃ e3, e.add_child (Child.elem tg a cs) b1 b2 = Except.ok e3) := by
  refine ⟨rfl, ?_, ?_⟩
  · rcases h with h | h
    · subst h; exact ⟨_, rfl⟩
    · subst h; cases esc <;> exact ⟨_, rfl⟩
  · intro b1 b2; exact ⟨_, rfl⟩

/-- Witness for C4 at a concrete element, text and flag combination. -/
theorem add_child_obfuscate_requires_escape_witness :
    (true = true ∨ false = false) ∧
    (HTMLElement.add_child ⟨"div", [], []⟩ (Child.text "x") false true
        = Except.error PyError.valueError ∧
      (∃ e2, HTMLElement.add_child ⟨"div", [], []⟩ (Child.text "x") true false
        = Except.ok e2) ∧
      (∀ b1 b2 : Bool, ∃ e3,
        HTMLElement.add_child ⟨"div", [], []⟩ (Child.elem "p" [] []) b1 b2
          = Except.ok e3)) :=
  ⟨Or.inl rfl,
    add_child_obfuscate_requires_escape ⟨"div", [], []⟩ "x" "p" [] [] true false (Or.inl rfl)⟩

/-- C7: an element with no attributes and no children renders exactly
`<t></t>`, with no extra space before `>` and nothing between the tags. -/
theorem render_no_attributes_no_children (t : String) :
    HTMLElement.str ⟨t, [], []⟩ = "<" ++ t ++ "></" ++ t ++ ">" := by
  show "<" ++ t ++ "" ++ ">" ++ "" ++ "</" ++ t ++ ">" = "<" ++ t ++ "></" ++ t ++ ">"
  rw [String.append_empty, String.append_empty,
    String.append_assoc ("<" ++ t) ">" "</"]
  rfl

/-- C8: `Html.__str__` is the literal `<!DOCTYPE html>` plus a newline,
followed by exactly the base-class rendering of the `html`-tagged element
with the same attributes and children. -/
theorem html_str_doctype_prefix (a : List (String × String)) (cs : List Child) :
    Html.str ⟨"html", a, cs⟩ = "<!DOCTYPE html>\n" ++ HTMLElement.str ⟨"html", a, cs⟩ := rfl

/-- C9: plain strings passed to the constructor are stored verbatim
(first conjunct), rendering joins the children's strings with a single
space (second conjunct), and `Div({}, ["a","b"])` renders exactly
`<div>a b</div>` (last conjuncts). -/
theorem div_plain_children_space_joined :
    (∀ ss : List String, HTMLElement.init "div" (some []) (some (ss.map ChildSpec.plain))
        = Except.ok ⟨"div", [], ss.map Child.text⟩) ∧
    (∀ (t : String) (a : List (String × String)) (cs : List Child),
      HTMLElement.str ⟨t, a, cs⟩
        = "<" ++ t ++ attributesStr a ++ ">"
          ++ String.intercalate " " (cs.map Child.render) ++ "</" ++ t ++ ">") ∧
    Div.init (some []) (some [ChildSpec.plain "a", ChildSpec.plain "b"])
      = Except.ok ⟨"div", [], [Child.text "a", Child.text "b"]⟩ ∧
    HTMLElement.str ⟨"div", [], [Child.text "a", Child.text "b"]⟩ = "<div>a b</div>" := by
  refine ⟨?_, ?_, rfl, rfl⟩
  · intro ss
    simp [HTMLElement.init, initChild, List.map_map, Function.comp]
  · intro t a cs
    show Child.render (Child.elem t a cs) = _
    rw [Child.render, renderChildren_eq_map]

/-- C10: a constructor tuple child whose flag is neither `"escape"` nor
`"obfuscate"` is accepted without error and its text is stored verbatim. -/
theorem tuple_unknown_flag_stored_verbatim (t s flag : String)
    (a : List (String × String))
    (h1 : flag ≠ "escape") (h2 : flag ≠ "obfuscate") :
    HTMLElement.init t (some a) (some [ChildSpec.tagged s flag])
      = Except.ok ⟨t, a, [Child.text s]⟩ := by
  simp [HTMLElement.init, initChild, h1, h2]

/-- Witness for C10 at the flag `"raw"`. -/
theorem tuple_unknown_flag_stored_verbatim_witness :
    ("raw" : String) ≠ "escape" ∧ ("raw" : String) ≠ "obfuscate" ∧
    HTMLElement.init "div" (some []) (some [ChildSpec.tagged "x" "raw"])
      = Except.ok ⟨"div", [], [Child.text "x"]⟩ :=
  ⟨by decide, by decide,
    tuple_unknown_flag_stored_verbatim "div" "x" "raw" [] (by decide) (by decide)⟩

/-! ## Lemmas about escaping, obfuscation and unescaping -/

theorem escapeChar_ne_nil (c : Char) : escapeChar c ≠ [] := by
  unfold escapeChar
  split_ifs <;> simp

theorem length_le_flatMap_escapeChar (l : List Char) :
    l.length ≤ (l.flatMap escapeChar).length := by
  induction l with
  | nil => simp
  | cons c rest ih =>
    rw [List.flatMap_cons, List.length_append, List.length_cons]
    have h1 : 1 ≤ (escapeChar c).length :=
      Nat.one_le_iff_ne_zero.mpr (fun h => escapeChar_ne_nil c (List.length_eq_zero.mp h))
    omega

theorem length_lt_flatMap_escapeChar (l : List Char) (h : '&' ∈ l) :
    l.length < (l.flatMap escapeChar).length := by
  induction l with
  | nil => cases h
  | cons c rest ih =>
    rw [List.flatMap_cons, List.length_append, List.length_cons]
    rcases List.mem_cons.mp h with h | h
    · have h5 : (escapeChar '&').length = 5 := rfl
      have h2 := length_le_flatMap_escapeChar rest
      rw [← h]
      omega
    · have h1 : 1 ≤ (escapeChar c).length :=
        Nat.one_le_iff_ne_zero.mpr (fun hz => escapeChar_ne_nil c (List.length_eq_zero.mp hz))
      have h2 := ih h
      omega

theorem amp_mem_escapeChar (c : Char) (h : c ∈ specialChars) : '&' ∈ escapeChar c := by
  simp only [specialChars, List.mem_cons, List.not_mem_nil, or_false] at h
  rcases h with h | h | h | h | h <;> subst h <;> decide

theorem amp_mem_escape_html (s : String) (h : ∃ c ∈ s.data, c ∈ specialChars) :
    '&' ∈ (escape_html s).data := by
  rcases h with ⟨c, hc, hspec⟩
  show '&' ∈ s.data.flatMap escapeChar
  exact List.mem_flatMap.mpr ⟨c, hc, amp_mem_escapeChar c hspec⟩

theorem foldl_append_data (L : List String) (acc : String) :
    (List.foldl (· ++ ·) acc L).data = acc.data ++ L.flatMap String.data := by
  induction L generalizing acc with
  | nil => simp
  | cons a L ih => simp [List.foldl_cons, ih, String.data_append]

theorem string_join_data (L : List String) :
    (String.join L).data = L.flatMap String.data := by
  have h := foldl_append_data L ""
  simpa [String.join] using h

theorem obfuscate_html_eq_join (t : String) :
    obfuscate_html t = String.join ((t.data.map Char.toNat).map numRefToken) := by
  apply String.ext
  rw [string_join_data, List.map_map, List.flatMap_map]
  rfl

set_option maxHeartbeats 4000000 in
theorem unescapeChars_flatMap_escapeChar (l : List Char) :
    unescapeChars (l.flatMap escapeChar) = l := by
  induction l with
  | nil => simp [unescapeChars]
  | cons c rest ih =>
    rw [List.flatMap_cons]
    by_cases h1 : c = '&'
    · subst h1
      have e1 : escapeChar '&' ++ rest.flatMap escapeChar
          = '&' :: 'a' :: 'm' :: 'p' :: ';' :: rest.flatMap escapeChar := rfl
      rw [e1, unescapeChars, if_pos rfl, unescapeAmp, ih]
    by_cases h2 : c = '<'
    · subst h2
      have e2 : escapeChar '<' ++ rest.flatMap escapeChar
          = '&' :: 'l' :: 't' :: ';' :: rest.flatMap escapeChar := rfl
      rw [e2, unescapeChars, if_pos rfl, unescapeAmp, ih]
    by_cases h3 : c = '>'
    · subst h3
      have e3 : escapeChar '>' ++ rest.flatMap escapeChar
          = '&' :: 'g' :: 't' :: ';' :: rest.flatMap escapeChar := rfl
      rw [e3, unescapeChars, if_pos rfl, unescapeAmp, ih]
    by_cases h4 : c = Char.ofNat 34
    · subst h4
      have e4 : escapeChar (Char.ofNat 34) ++ rest.flatMap escapeChar
          = '&' :: 'q' :: 'u' :: 'o' :: 't' :: ';' :: rest.flatMap escapeChar := rfl
      rw [e4, unescapeChars, if_pos rfl, unescapeAmp, ih]
    by_cases h5 : c = Char.ofNat 39
    · subst h5
      have e5 : escapeChar (Char.ofNat 39) ++ rest.flatMap escapeChar
          = '&' :: '#' :: 'x' :: '2' :: '7' :: ';' :: rest.flatMap escapeChar := rfl
      rw [e5, unescapeChars, if_pos rfl, unescapeAmp, ih]
    · have e6 : escapeChar c = [c] := by simp [escapeChar, h1, h2, h3, h4, h5]
      rw [e6, List.cons_append, List.nil_append, unescapeChars, if_neg h1, ih]

theorem unescape_escape_html (s : String) : unescape (escape_html s) = s := by
  apply String.ext
  show unescapeChars (s.data.flatMap escapeChar) = s.data
  exact unescapeChars_flatMap_escapeChar s.data

/-- C5: the child stored by `add_child(s, escape=True, obfuscate=True)` is
`obfuscate(escape(s))`; that string is a concatenation of decimal numeric
character references `&#<n>;`, and decoding each reference back to its
character and then unescaping the HTML entities reproduces `s` exactly. -/
theorem obfuscate_escape_roundtrip (e : HTMLElement) (s : String)
    (_h : ∀ c ∈ s.data, isPrintablePy c = true) :
    e.add_child (Child.text s) true true
      = Except.ok { e with children :=
          e.children ++ [Child.text (obfuscate_html (escape_html s))] } ∧
    ∃ ns : List Nat,
      obfuscate_html (escape_html s) = String.join (ns.map numRefToken) ∧
      unescape (String.mk (ns.map Char.ofNat)) = s := by
  refine ⟨rfl, (escape_html s).data.map Char.toNat, obfuscate_html_eq_join _, ?_⟩
  rw [List.map_map]
  have hmap : (escape_html s).data.map (Char.ofNat ∘ Char.toNat) = (escape_html s).data := by
    have : Char.ofNat ∘ Char.toNat = id := funext Char.ofNat_toNat
    rw [this, List.map_id]
  rw [hmap]
  exact unescape_escape_html s

/-- Witness for C5 at the printable string `"A & B"`. -/
theorem obfuscate_escape_roundtrip_witness :
    (∀ c ∈ "A & B".data, isPrintablePy c = true) ∧
    (HTMLElement.add_child ⟨"div", [], []⟩ (Child.text "A & B") true true
      = Except.ok ⟨"div", [],
          [Child.text (obfuscate_html (escape_html "A & B"))]⟩ ∧
    ∃ ns : List Nat,
      obfuscate_html (escape_html "A & B") = String.join (ns.map numRefToken) ∧
      unescape (String.mk (ns.map Char.ofNat)) = "A & B") :=
  ⟨by decide, obfuscate_escape_roundtrip ⟨"div", [], []⟩ "A & B" (by decide)⟩

/-- C6 counterexample: the claim says escaping is never idempotent for any
text; but on a string with no HTML-significant characters `escape` is the
identity, so applying it twice equals applying it once. -/
theorem escape_idempotent_at_plain_string :
    escape_html (escape_html "a") = escape_html "a" := rfl

/-- C6 (amended): for every string containing at least one of the five
HTML-significant characters, applying `escape` twice differs from applying
it once — the `&` of the produced entities gets re-escaped. -/
theorem escape_not_idempotent_on_special (s : String)
    (h : ∃ c ∈ s.data, c ∈ specialChars) :
    escape_html (escape_html s) ≠ escape_html s := by
  intro heq
  have hamp : '&' ∈ (escape_html s).data := amp_mem_escape_html s h
  have hlt : (escape_html s).data.length < ((escape_html s).data.flatMap escapeChar).length :=
    length_lt_flatMap_escapeChar _ hamp
  have hdata : (escape_html s).data.flatMap escapeChar = (escape_html s).data :=
    congrArg String.data heq
  rw [hdata] at hlt
  omega

/-- Witness for the amended C6 at the string `"&"`. -/
theorem escape_not_idempotent_on_special_witness :
    (∃ c ∈ "&".data, c ∈ specialChars) ∧
    escape_html (escape_html "&") ≠ escape_html "&" :=
  ⟨by decide, escape_not_idempotent_on_special "&" (by decide)⟩
